import Mathlib

/-!
Verification development for the `automated-data-pipeline-python` repository.

The definitions below are a shallow embedding of the caching HTTP client
(`src/pipeline/utils/api.py`, `src/pipeline/utils/cache.py`) and the
producer/consumer collection pipeline (`src/pipeline/collectors/nft.py`).
Each definition carries a comment pointing at the source construct it embeds.
-/

namespace Pipeline

/-! ## Character/string scanning helpers

Python's `re.search(pat, s, IGNORECASE)` on the literal patterns used by the
repository (`no-store`, `no-cache`, `must-revalidate`, `stale-while-revalidate`,
`max-age=(\d+)`, `stale-while-revalidate=(\d+)`) amounts to case-insensitive
substring search, with a greedy digit run for the capture groups.  We embed
that directly on `List Char`. -/

/-- Lower-cased character list of a string (models `re.IGNORECASE` by lowering
both the pattern and the subject before scanning). -/
def lowerChars (s : String) : List Char :=
  s.toList.map Char.toLower

/-- `matchesAt pat l` holds when `pat` occurs at the very start of `l`. -/
def matchesAt : List Char → List Char → Bool
  | [], _ => true
  | _ :: _, [] => false
  | p :: ps, c :: cs => p = c && matchesAt ps cs

/-- Case-sensitive substring occurrence on character lists. -/
def containsSeq (pat : List Char) : List Char → Bool
  | [] => matchesAt pat []
  | c :: rest => matchesAt pat (c :: rest) || containsSeq pat rest

/-- `re.search(pat, s, IGNORECASE) is not None` for a literal pattern `pat`. -/
def containsCI (s pat : String) : Bool :=
  containsSeq (lowerChars pat) (lowerChars s)

/-- Greedy digit run at the front of a character list (the `(\d+)` capture);
`none` when the first character is not a digit. -/
def readNum (l : List Char) : Option Nat :=
  let ds := l.takeWhile Char.isDigit
  if ds.isEmpty then none
  else some (ds.foldl (fun a c => a * 10 + (c.toNat - 48)) 0)

/-- First occurrence of `pat` immediately followed by at least one digit;
returns the greedy digit run, like `re.search(pat + r"(\d+)", s)`. -/
def findNumAfter (pat : List Char) : List Char → Option Nat
  | [] => none
  | c :: rest =>
    if matchesAt pat (c :: rest) then
      match readNum ((c :: rest).drop pat.length) with
      | some n => some n
      | none => findNumAfter pat rest
    else findNumAfter pat rest

/-! ## `AsyncCache` cache-control arithmetic (`src/pipeline/utils/cache.py`) -/

/-- `AsyncCache._max_ttl` default: 86 400 seconds (24 hours). -/
def maxTtlDefault : Nat := 86400

/-- `AsyncCache.get_max_age` (cache.py lines 76-81):
`search(r"max-age=(\d+)", cache_control, IGNORECASE)`, defaulting to 0. -/
def get_max_age (cache_control : String) : Nat :=
  (findNumAfter (lowerChars "max-age=") (lowerChars cache_control)).getD 0

/-- The `stale-while-revalidate=(\d+)` directive value (cache.py line 86). -/
def swrSeconds (cache_control : String) : Option Nat :=
  findNumAfter (lowerChars "stale-while-revalidate=") (lowerChars cache_control)

/-- `AsyncCache.calculate_ttl` (cache.py lines 83-94), parameterized by the
`_max_ttl` class variable: ttl = max-age, plus stale-while-revalidate when
present; a value of zero or one exceeding `max_ttl` becomes `max_ttl`. -/
def calculate_ttl (max_ttl : Nat) (cache_control : String) : Nat :=
  let ttl := get_max_age cache_control + (swrSeconds cache_control).getD 0
  if ttl = 0 ∨ ttl > max_ttl then max_ttl else ttl

/-! ## Responses, cache entries and the TTL-capable store -/

/-- The parts of an `httpx.Response` that `api.py`/`cache.py` consume.  The
header fields carry `response.headers.get(h, "")`; `body` stands for the JSON
payload `response.json()`. -/
structure HResponse where
  status_code : Nat
  url : String
  method : String
  http_version : String
  cache_control : String
  etag : String
  last_modified : String
  body : String
  deriving Repr, DecidableEq

/-- The persisted cache payload built by `AsyncRedisCache.set_cache`
(cache.py lines 148-159).  Field `max_age` is the dict key `"max-age"`,
`ttl` the key `"ttl"`, and `body` the key `"body"`. -/
structure CacheEntry where
  status_code : Nat
  url : String
  method : String
  http_version : String
  cache_control : String
  etag : String
  last_modified : String
  max_age : Nat
  ttl : Nat
  body : String
  deriving Repr, DecidableEq

/-- The entry `set_cache` persists for a response (cache.py lines 148-159). -/
def entryOfResponse (r : HResponse) : CacheEntry :=
  { status_code := r.status_code
    url := r.url
    method := r.method
    http_version := r.http_version
    cache_control := r.cache_control
    etag := r.etag
    last_modified := r.last_modified
    max_age := get_max_age r.cache_control
    ttl := calculate_ttl maxTtlDefault r.cache_control
    body := r.body }

/-- The Redis store, abstracted to its observable content: for each key,
the stored entry together with the remaining TTL that `redis.ttl` reports. -/
def Store : Type := String → Option (CacheEntry × Int)

/-- The store with no entries. -/
def emptyStore : Store := fun _ => none

/-- `redis.set(key, payload, ex=ttl)` (cache.py line 161). -/
def storeSet (s : Store) (key : String) (e : CacheEntry) (ttl : Nat) : Store :=
  fun k => if k = key then some (e, (ttl : Int)) else s k

/-- `redis.expire(key, ttl)` (cache.py line 145): refresh the remaining TTL of
an existing key, leaving the stored payload untouched; no-op on a missing
key. -/
def storeExpire (s : Store) (key : String) (ttl : Nat) : Store :=
  fun k => if k = key then (s key).map (fun p => (p.1, (ttl : Int))) else s k

/-- `redis.ttl(key)`: remaining TTL in seconds, `-2` when the key is absent. -/
def ttlRemaining (s : Store) (key : String) : Int :=
  match s key with
  | some p => p.2
  | none => -2

/-- The stored entry at a key, when present. -/
def entryAt (s : Store) (key : String) : Option CacheEntry :=
  (s key).map Prod.fst

/-- `AsyncRedisCache.set_cache(response, key, update)` (cache.py lines
135-161): with `update = true` only `redis.expire(key, ttl)` runs; otherwise
the full payload is stored under `key` with expiry `ttl`, both TTLs computed
from the response's cache-control. -/
def set_cache (s : Store) (r : HResponse) (key : String) (update : Bool) : Store :=
  let ttl := calculate_ttl maxTtlDefault r.cache_control
  if update then storeExpire s key ttl
  else storeSet s key (entryOfResponse r) ttl

/-- `AsyncRedisCache.is_stale(cached_response, key)` (cache.py lines 164-173):
stale when the store's remaining TTL is at most `ttl - max-age` (the
staleness window) of the cached payload. -/
def is_stale (s : Store) (cached : CacheEntry) (key : String) : Bool :=
  ttlRemaining s key ≤ (cached.ttl : Int) - (cached.max_age : Int)

/-! ## `AsyncCache` key building (`src/pipeline/utils/cache.py` lines 28-74)

`build_cache_key` serializes the normalized URL and allow-listed headers as
compact JSON and hashes it with SHA-256; the SHA-256 rounds below are the
standard FIPS 180-4 algorithm on `Nat` words reduced mod `2^32`. -/

/-- Lower-cased string. -/
def lowerStr (s : String) : String :=
  String.mk (lowerChars s)

/-- Split at the first occurrence of character `sep`; the second component is
`none` when `sep` does not occur. -/
def breakAt (sep : Char) : List Char → List Char × Option (List Char)
  | [] => ([], none)
  | x :: xs =>
    if x = sep then ([], some xs)
    else
      let r := breakAt sep xs
      (x :: r.1, r.2)

/-- Split at the first occurrence of the sequence `pat` (exclusive). -/
def findSeqSplit (pat : List Char) : List Char → Option (List Char × List Char)
  | [] => if matchesAt pat [] then some ([], []) else none
  | c :: rest =>
    if matchesAt pat (c :: rest) then some ([], (c :: rest).drop pat.length)
    else (findSeqSplit pat rest).map (fun pr => (c :: pr.1, pr.2))

/-- `urllib.parse.urlsplit` restricted to the shapes this repository feeds it
(absolute `scheme://netloc/path?query#fragment` URLs): returns
(scheme, netloc, path, query), the fragment discarded. -/
def urlsplitM (url : List Char) : List Char × List Char × List Char × List Char :=
  let beforeFrag := (breakAt '#' url).1
  match findSeqSplit ([':', '/', '/']) beforeFrag with
  | some (sch, rest) =>
    let netloc := rest.takeWhile (fun c => ¬(c = '/' ∨ c = '?'))
    let rest2 := rest.drop netloc.length
    let pq := breakAt '?' rest2
    (sch, netloc, pq.1, pq.2.getD [])
  | none =>
    let pq := breakAt '?' beforeFrag
    ([], [], pq.1, pq.2.getD [])

/-- Split a character list on every occurrence of `sep`. -/
def splitOnChar (sep : Char) : List Char → List (List Char)
  | [] => [[]]
  | c :: rest =>
    let r := splitOnChar sep rest
    if c = sep then [] :: r
    else (c :: r.headD []) :: r.tail

/-- Hex digit value of a character, when it is one. -/
def hexVal (c : Char) : Option Nat :=
  if '0' ≤ c ∧ c ≤ '9' then some (c.toNat - 48)
  else if 'a' ≤ c ∧ c ≤ 'f' then some (c.toNat - 87)
  else if 'A' ≤ c ∧ c ≤ 'F' then some (c.toNat - 55)
  else none

/-- `urllib.parse.unquote_plus`: `+` becomes a space and `%hh` sequences are
decoded (decoded bytes taken as characters). -/
def unquotePlus : List Char → List Char
  | [] => []
  | '%' :: a :: b :: rest =>
    match hexVal a, hexVal b with
    | some x, some y => Char.ofNat (16 * x + y) :: unquotePlus rest
    | _, _ => '%' :: unquotePlus (a :: b :: rest)
  | '+' :: rest => ' ' :: unquotePlus rest
  | c :: rest => c :: unquotePlus rest

/-- `urllib.parse.parse_qsl(query)` with its defaults: fields split on `&`,
fields without `=` or with an empty value are dropped, names and values are
`unquote_plus`-decoded. -/
def parse_qsl (q : List Char) : List (String × String) :=
  (splitOnChar '&' q).foldr
    (fun fld acc =>
      match breakAt '=' fld with
      | (_, none) => acc
      | (n, some v) =>
        if v.isEmpty then acc
        else (String.mk (unquotePlus n), String.mk (unquotePlus v)) :: acc)
    []

/-- Python tuple comparison on (key, value) string pairs, as a Bool. -/
def pairLe (p q : String × String) : Bool :=
  decide (p.1 < q.1) || (p.1 = q.1 && decide (p.2 ≤ q.2))

/-- Stable insertion into a le-sorted list. -/
def insertLe (le : α → α → Bool) (x : α) : List α → List α
  | [] => [x]
  | y :: ys => if le x y then x :: y :: ys else y :: insertLe le x ys

/-- Stable insertion sort (Python `sorted`). -/
def sortLe (le : α → α → Bool) (l : List α) : List α :=
  l.foldr (insertLe le) []

/-- UTF-8 byte sequence of a character. -/
def utf8Bytes (c : Char) : List Nat :=
  let n := c.toNat
  if n < 128 then [n]
  else if n < 2048 then [192 ||| (n >>> 6), 128 ||| (n &&& 63)]
  else if n < 65536 then
    [224 ||| (n >>> 12), 128 ||| ((n >>> 6) &&& 63), 128 ||| (n &&& 63)]
  else
    [240 ||| (n >>> 18), 128 ||| ((n >>> 12) &&& 63),
     128 ||| ((n >>> 6) &&& 63), 128 ||| (n &&& 63)]

/-- Upper-case hex digit. -/
def hexDigitU (n : Nat) : Char :=
  if n < 10 then Char.ofNat (48 + n) else Char.ofNat (55 + n)

/-- Lower-case hex digit. -/
def hexDigitL (n : Nat) : Char :=
  if n < 10 then Char.ofNat (48 + n) else Char.ofNat (87 + n)

/-- `urllib.parse.quote_plus` of one character: alphanumerics and `_.-~` kept,
space becomes `+`, everything else percent-encoded bytewise. -/
def quotePlusChar (c : Char) : List Char :=
  if c.isAlphanum ∨ c = '_' ∨ c = '.' ∨ c = '-' ∨ c = '~' then [c]
  else if c = ' ' then ['+']
  else (utf8Bytes c).foldr
    (fun b acc => '%' :: hexDigitU (b >>> 4) :: hexDigitU (b &&& 15) :: acc) []

/-- `urllib.parse.quote_plus` on a string. -/
def quotePlus (s : String) : String :=
  String.mk ((s.toList.map quotePlusChar).flatten)

/-- `urllib.parse.urlencode(pairs)` with `quote_plus` quoting. -/
def urlencodePairs (l : List (String × String)) : String :=
  String.intercalate "&" (l.map (fun p => quotePlus p.1 ++ "=" ++ quotePlus p.2))

/-- `AsyncCache.normalize_url` (cache.py lines 28-39): lower-case scheme and
netloc, sort the parsed query pairs, drop the fragment, keep the path. -/
def normalize_url (url : String) : String :=
  let parts := urlsplitM url.toList
  let sch := parts.1
  let netloc := parts.2.1
  let path := parts.2.2.1
  let query := parts.2.2.2
  let nq := urlencodePairs (sortLe pairLe (parse_qsl query))
  (if sch.isEmpty then "" else String.mk (sch.map Char.toLower) ++ ":") ++
  (if netloc.isEmpty then "" else "//" ++ String.mk (netloc.map Char.toLower)) ++
  String.mk path ++
  (if nq.isEmpty then "" else "?" ++ nq)

/-- Insert-or-replace into an association list, preserving first-insertion
order (Python dict semantics). -/
def dictUpsert (l : List (String × String)) (k v : String) : List (String × String) :=
  if l.any (fun p => p.1 = k) then l.map (fun p => if p.1 = k then (k, v) else p)
  else l ++ [(k, v)]

/-- `AsyncCache.relevant_headers` (cache.py lines 41-55): keep only the
allow-list `accept`, `content-type`, keys lower-cased, dict semantics. -/
def relevant_headers (headers : List (String × String)) : List (String × String) :=
  headers.foldl
    (fun acc p =>
      let k := lowerStr p.1
      if k = "accept" ∨ k = "content-type" then dictUpsert acc k p.2 else acc)
    []

/-- `\uXXXX` escape sequence (with surrogate pairs above the BMP), as
produced by `json.dumps` with `ensure_ascii`. -/
def uEscape (n : Nat) : List Char :=
  if n < 65536 then
    ['\\', 'u', hexDigitL ((n >>> 12) % 16), hexDigitL ((n >>> 8) % 16),
     hexDigitL ((n >>> 4) % 16), hexDigitL (n % 16)]
  else
    uEscape (55296 + ((n - 65536) >>> 10)) ++ uEscape (56320 + ((n - 65536) % 1024))

/-- `json.dumps` escaping of one character. -/
def jsonEscapeChar (c : Char) : List Char :=
  if c = '"' then ['\\', '"']
  else if c = '\\' then ['\\', '\\']
  else if c = '\n' then ['\\', 'n']
  else if c = '\t' then ['\\', 't']
  else if c = '\r' then ['\\', 'r']
  else if c.toNat = 8 then ['\\', 'b']
  else if c.toNat = 12 then ['\\', 'f']
  else if c.toNat < 32 ∨ c.toNat ≥ 128 then uEscape c.toNat
  else [c]

/-- A JSON string literal. -/
def jsonStr (s : String) : String :=
  "\"" ++ String.mk ((s.toList.map jsonEscapeChar).flatten) ++ "\""

/-- A JSON object from string pairs with `sort_keys=True` and the compact
separators `(",", ":")`. -/
def jsonObj (l : List (String × String)) : String :=
  "\x7b" ++
    String.intercalate ","
      ((sortLe pairLe l).map (fun p => jsonStr p.1 ++ ":" ++ jsonStr p.2)) ++
  "\x7d"

/-- The serialized payload of `build_cache_key` (cache.py lines 66-71):
`json.dumps(\x7b"url": normalized, "headers": filtered\x7d, sort_keys=True,
separators=(",", ":"))` — with sorted keys `"headers"` precedes `"url"`. -/
def payloadJson (url : String) (headers : List (String × String)) : String :=
  "\x7b\"headers\":" ++ jsonObj (relevant_headers headers) ++
    ",\"url\":" ++ jsonStr (normalize_url url) ++ "\x7d"

/-! ### SHA-256 (FIPS 180-4), words as `Nat` mod `2^32` -/

/-- Reduce to a 32-bit word. -/
def u32 (n : Nat) : Nat := n % 4294967296

/-- Right rotation of a 32-bit word. -/
def rotr32 (x k : Nat) : Nat := u32 ((x >>> k) ||| (x <<< (32 - k)))

/-- The 64 SHA-256 round constants (FIPS 180-4 section 4.2.2), written in
decimal. -/
def sha256K : List Nat :=
  [1116352408, 1899447441, 3049323471, 3921009573, 961987163,
   1508970993, 2453635748, 2870763221, 3624381080, 310598401,
   607225278, 1426881987, 1925078388, 2162078206, 2614888103,
   3248222580, 3835390401, 4022224774, 264347078, 604807628,
   770255983, 1249150122, 1555081692, 1996064986, 2554220882,
   2821834349, 2952996808, 3210313671, 3336571891, 3584528711,
   113926993, 338241895, 666307205, 773529912, 1294757372,
   1396182291, 1695183700, 1986661051, 2177026350, 2456956037,
   2730485921, 2820302411, 3259730800, 3345764771, 3516065817,
   3600352804, 4094571909, 275423344, 430227734, 506948616,
   659060556, 883997877, 958139571, 1322822218, 1537002063,
   1747873779, 1955562222, 2024104815, 2227730452, 2361852424,
   2428436474, 2756734187, 3204031479, 3329325298]

/-- The SHA-256 initial hash value (FIPS 180-4 section 5.3.3), in decimal. -/
def sha256H0 : List Nat :=
  [1779033703, 3144134277, 1013904242, 2773480762,
   1359893119, 2600822924, 528734635, 1541459225]

/-- Message padding: `0x80`, zeros to 56 mod 64, then the 64-bit big-endian
bit length. -/
def sha256Pad (msg : List Nat) : List Nat :=
  let len := msg.length
  let bitLen := len * 8
  let padZeros := (119 - len % 64) % 64
  msg ++ [128] ++ List.replicate padZeros 0 ++
    (List.range 8).map (fun i => (bitLen >>> ((7 - i) * 8)) % 256)

/-- The 16 big-endian words of block `b` of a padded message. -/
def sha256Block (padded : List Nat) (b : Nat) : List Nat :=
  (List.range 16).map (fun w =>
    let o := b * 64 + w * 4
    (padded.getD o 0) * 16777216 + (padded.getD (o + 1) 0) * 65536 +
      (padded.getD (o + 2) 0) * 256 + padded.getD (o + 3) 0)

/-- Extend 16 words to the 64-word message schedule. -/
def sha256Schedule (ws : List Nat) : List Nat :=
  (List.range 48).foldl
    (fun acc _ =>
      let n := acc.length
      let w15 := acc.getD (n - 15) 0
      let w2 := acc.getD (n - 2) 0
      let s0 := (rotr32 w15 7) ^^^ (rotr32 w15 18) ^^^ (w15 >>> 3)
      let s1 := (rotr32 w2 17) ^^^ (rotr32 w2 19) ^^^ (w2 >>> 10)
      acc ++ [u32 (acc.getD (n - 16) 0 + s0 + acc.getD (n - 7) 0 + s1)])
    ws

/-- One compression round. -/
def sha256Round (st : List Nat) (kw : Nat) : List Nat :=
  let a := st.getD 0 0
  let b := st.getD 1 0
  let c := st.getD 2 0
  let d := st.getD 3 0
  let e := st.getD 4 0
  let f := st.getD 5 0
  let g := st.getD 6 0
  let h := st.getD 7 0
  let s1 := (rotr32 e 6) ^^^ (rotr32 e 11) ^^^ (rotr32 e 25)
  let ch := (e &&& f) ^^^ ((4294967295 - e) &&& g)
  let t1 := u32 (h + s1 + ch + kw)
  let s0 := (rotr32 a 2) ^^^ (rotr32 a 13) ^^^ (rotr32 a 22)
  let mj := (a &&& b) ^^^ (a &&& c) ^^^ (b &&& c)
  let t2 := u32 (s0 + mj)
  [u32 (t1 + t2), a, b, c, u32 (d + t1), e, f, g]

/-- Compress one block into the running hash. -/
def sha256Compress (h : List Nat) (block : List Nat) : List Nat :=
  let w := sha256Schedule block
  let st := (List.range 64).foldl
    (fun st i => sha256Round st (u32 ((sha256K.getD i 0) + w.getD i 0))) h
  (List.range 8).map (fun i => u32 (h.getD i 0 + st.getD i 0))

/-- SHA-256 digest of a byte list, as the list of eight 32-bit words. -/
def sha256Words (msg : List Nat) : List Nat :=
  let padded := sha256Pad msg
  (List.range (padded.length / 64)).foldl
    (fun h b => sha256Compress h (sha256Block padded b)) sha256H0

/-- Eight lower-case hex characters of a 32-bit word. -/
def wordHex (w : Nat) : List Char :=
  (List.range 8).map (fun i => hexDigitL ((w >>> ((7 - i) * 4)) % 16))

/-- `hashlib.sha256(raw.encode()).hexdigest()`. -/
def sha256hex (s : String) : String :=
  String.mk (((sha256Words ((s.toList.map utf8Bytes).flatten)).map wordHex).flatten)

/-- `AsyncCache.build_cache_key(namespace, url, headers, version)` (cache.py
lines 57-74): note that `params` is not an input — the key is built from the
namespace, the normalized URL, the allow-listed headers and the version
only. -/
def build_cache_key (ns url : String) (headers : List (String × String))
    (version : String) : String :=
  ns ++ ":" ++ version ++ ":" ++ sha256hex (payloadJson url headers)

/-- Store effect of `CacheAPI._validate_response` (api.py lines 140-152) given
the server's reply `r` to the conditional GET: a 304 refreshes the TTL via
`set_cache(response, key, update=True)`; every other status (including 200,
which is only logged at line 151) leaves the store untouched.  The detached
background revalidation task spawned at api.py line 206 runs exactly this and
nothing else. -/
def validate_response (s : Store) (key : String) (r : HResponse) : Store :=
  if r.status_code = 304 then set_cache s r key true else s

/-! ## Retry classification and backoff (`src/pipeline/utils/api.py` line 154)

`_get_with_retry` is decorated
`@retry(on = (HTTPStatusError, RemoteProtocolError, ReadTimeout),
wait_initial = 1, wait_max = _sleep_timeout)` with `_sleep_timeout = 300`.
The error taxonomy below mirrors the exceptions the decorator names:
`httpStatusError` for `httpx.HTTPStatusError` (any HTTP error status raised by
`raise_for_status`), `remoteProtocolError` for `httpx.RemoteProtocolError`
(the low-level connection failure listed at the call site: the peer closed or
corrupted the connection mid-exchange), `readTimeout` for `httpx.ReadTimeout`,
and `otherError` for every exception outside the `on` tuple. -/

inductive FetchError where
  | httpStatusError (code : Nat)
  | remoteProtocolError
  | readTimeout
  | otherError (name : String)
  deriving Repr, DecidableEq

/-- The `on = (HTTPStatusError, RemoteProtocolError, ReadTimeout)` tuple of the
`@retry` decorator (api.py line 154): which raised errors are retried. -/
def retryOn : FetchError → Bool
  | .httpStatusError _ => true
  | .remoteProtocolError => true
  | .readTimeout => true
  | .otherError _ => false

/-- `Response.raise_for_status()` (api.py line 163): raises `HTTPStatusError`
exactly on the 4xx/5xx statuses. -/
def raise_for_status (r : HResponse) : Except FetchError Unit :=
  if 400 ≤ r.status_code ∧ r.status_code < 600 then
    .error (.httpStatusError r.status_code)
  else .ok ()

/-- Modelled from the spec: the sleep schedule of the external `stamina`
library's retry decorator, which is not part of this repository's sources
(only its configuration `wait_initial = 1`, `wait_max = _sleep_timeout = 300`
appears at api.py line 154): exponential backoff starting from the initial
delay, capped at the maximum sleep ceiling. -/
def backoffWait (attempt : Nat) : Nat :=
  min (1 * 2 ^ attempt) 300

/-- State of the retry loop before the given attempt number. -/
inductive RetryState (α : Type) where
  | running
  | succeeded (v : α)
  | failedNonRetryable (e : FetchError)
  deriving Repr, DecidableEq

/-- Modelled from the spec: the retry loop of the external `stamina` library
(not in this repository's sources; the call site only fixes the `on` tuple and
the wait bounds): attempts repeat until success or a non-retryable error, with
no attempt ceiling.  `outcomes k` is the result of attempt `k`; the state
before attempt `n` is folded over the first `n` outcomes through the `on`
classification `retryOn`. -/
def retryState (outcomes : Nat → Except FetchError α) : Nat → RetryState α
  | 0 => .running
  | n + 1 =>
    match retryState outcomes n with
    | .running =>
      match outcomes n with
      | .ok v => .succeeded v
      | .error e => if retryOn e then .running else .failedNonRetryable e
    | st => st

/-! ## `CacheAPI.get` (`src/pipeline/utils/api.py` lines 174-221)

The coroutine is embedded as a state transformer on the cache store.  Network
effects are supplied as oracles: `netFetch params` is the overall outcome of
`_get_with_retry` for the given query params (a successful response or the
non-retryable error that escaped the retry loop), and `revalResp` is the
server's reply to the conditional GET of `_validate_response` (which is sent
with the revalidation headers only — no params, api.py line 142). -/

/-- What one `CacheAPI.get` call did: the resulting store, the returned body
(or propagated error), the cache key it used, whether any network request was
issued, whether a conditional revalidation was issued (synchronously or as a
detached background task), and the response a pending detached task will
observe. -/
structure GetOutcome where
  store : Store
  result : Except FetchError String
  keyUsed : String
  netIssued : Bool
  revalIssued : Bool
  bgReval : Option HResponse

/-- `CacheAPI.get(url, params, headers)` (api.py lines 174-221).  Mirrors the
source line by line: build the key (without `params`), look up the cache; on a
miss run `_get_with_retry` (which persists the response unless cache-control
has `no-store`, api.py lines 165-167); on a hit decide revalidation from
`no-cache` / `must-revalidate` ∧ stale / stale, build conditional headers from
etag else last-modified, dispatch `_validate_response` detached when
`stale-while-revalidate` is present (returning the cached body) or
synchronously otherwise (a 200 is persisted wholesale and returned; anything
else falls through to the cached body). -/
def cacheGet (ns : String) (s : Store) (url : String)
    (params : List (String × String)) (headers : List (String × String))
    (netFetch : List (String × String) → Except FetchError HResponse)
    (revalResp : HResponse) : GetOutcome :=
  let key := build_cache_key ns url headers "v1"
  match s key with
  | none =>
    match netFetch params with
    | .error e =>
      { store := s, result := .error e, keyUsed := key,
        netIssued := true, revalIssued := false, bgReval := none }
    | .ok r =>
      let s' := if containsCI r.cache_control "no-store" then s
                else set_cache s r key false
      { store := s', result := .ok r.body, keyUsed := key,
        netIssued := true, revalIssued := false, bgReval := none }
  | some (entry, _) =>
    let cc := entry.cache_control
    let stale := is_stale s entry key
    let needsReval :=
      containsCI cc "no-cache" || (containsCI cc "must-revalidate" && stale) || stale
    let revalHeaders :=
      if entry.etag ≠ "" then [("if-none-match", entry.etag)]
      else if entry.last_modified ≠ "" then [("if-modified-since", entry.last_modified)]
      else ([] : List (String × String))
    if needsReval ∧ ¬revalHeaders.isEmpty then
      if containsCI cc "stale-while-revalidate" then
        { store := s, result := .ok entry.body, keyUsed := key,
          netIssued := true, revalIssued := true, bgReval := some revalResp }
      else
        let s' := validate_response s key revalResp
        if revalResp.status_code = 200 then
          { store := set_cache s' revalResp key false, result := .ok revalResp.body,
            keyUsed := key, netIssued := true, revalIssued := true, bgReval := none }
        else
          { store := s', result := .ok entry.body, keyUsed := key,
            netIssued := true, revalIssued := true, bgReval := none }
    else
      { store := s, result := .ok entry.body, keyUsed := key,
        netIssued := false, revalIssued := false, bgReval := none }

/-! ## Concurrency limiter of one `CacheAPI` instance (api.py lines 53-54, 176)

`get` wraps its whole body in `async with self._semaphore` where `_semaphore =
BoundedSemaphore(max_concurrency)`; the `async with` releases the slot on
every exit path, normal or exceptional.  The detached revalidation task of
api.py line 206 runs `_validate_response`, whose `self.client.get` (line 142)
is *not* guarded by the semaphore.  Counting abstraction over the cooperative
interleavings of `M` callers of `get` on one instance: -/

structure ClientTasks where
  /-- `get` calls not yet holding a slot (suspended on the semaphore or not
  yet started). -/
  waiting : Nat
  /-- `get` calls holding a slot, currently not awaiting the network. -/
  inBody : Nat
  /-- `get` calls holding a slot with their network request in flight
  (the retried fetch of a miss, or a synchronous conditional GET). -/
  inRequest : Nat
  /-- detached `_validate_response` tasks created but not yet at their
  `client.get`. -/
  bgSpawned : Nat
  /-- detached conditional GET requests in flight. -/
  bgRequest : Nat
  /-- `get` calls that exited (normally or with an error). -/
  finished : Nat
  deriving Repr, DecidableEq

/-- Interleaving steps of the `get` callers of one instance configured with
`max_concurrency = N`.  `acquire` is gated by the bounded semaphore;
`releaseOk`/`releaseErr` are the two exit paths of the `async with` block;
`spawnBg` is `create_task(self._validate_response(...))` at api.py line 206;
`bgReqStart` has no semaphore guard, because `_validate_response` never
touches `_semaphore`. -/
inductive clientStep (N : Nat) : ClientTasks → ClientTasks → Prop
  | acquire (s : ClientTasks) :
      0 < s.waiting → s.inBody + s.inRequest < N →
      clientStep N s { s with waiting := s.waiting - 1, inBody := s.inBody + 1 }
  | reqStart (s : ClientTasks) :
      0 < s.inBody →
      clientStep N s { s with inBody := s.inBody - 1, inRequest := s.inRequest + 1 }
  | reqEnd (s : ClientTasks) :
      0 < s.inRequest →
      clientStep N s { s with inRequest := s.inRequest - 1, inBody := s.inBody + 1 }
  | spawnBg (s : ClientTasks) :
      0 < s.inBody →
      clientStep N s { s with bgSpawned := s.bgSpawned + 1 }
  | releaseOk (s : ClientTasks) :
      0 < s.inBody →
      clientStep N s { s with inBody := s.inBody - 1, finished := s.finished + 1 }
  | releaseErr (s : ClientTasks) :
      0 < s.inBody →
      clientStep N s { s with inBody := s.inBody - 1, finished := s.finished + 1 }
  | bgReqStart (s : ClientTasks) :
      0 < s.bgSpawned →
      clientStep N s { s with bgSpawned := s.bgSpawned - 1, bgRequest := s.bgRequest + 1 }
  | bgReqEnd (s : ClientTasks) :
      0 < s.bgRequest →
      clientStep N s { s with bgRequest := s.bgRequest - 1 }

/-- Initial state: `M` callers, nothing started. -/
def clientInit (M : Nat) : ClientTasks :=
  { waiting := M, inBody := 0, inRequest := 0, bgSpawned := 0, bgRequest := 0,
    finished := 0 }

/-- States reachable by interleaving `M` callers on an instance with
`max_concurrency = N`. -/
def clientReachable (N M : Nat) (s : ClientTasks) : Prop :=
  Relation.ReflTransGen (clientStep N) (clientInit M) s

/-- Outbound requests of the instance in flight: requests of `get` bodies plus
detached background revalidation requests. -/
def requestsInFlight (s : ClientTasks) : Nat :=
  s.inRequest + s.bgRequest

/-! ## Producer/consumer pipeline (`src/pipeline/collectors/nft.py` 62-96)

`get_all_nfts` runs one producer (`get_opensea_nfts`) enqueueing items on a
`Queue(maxsize=500)`, `W` workers (`get_nft`) that dequeue, enrich inside
`try`, and call `queue.task_done()` in `finally` — also for the `None`
sentinel; the orchestrator awaits the producer, puts one `None` per worker,
and `queue.join()`s.  Counting/multiset abstraction over the interleavings,
items identified by production index: -/

inductive QItem where
  | item (id : Nat)
  | sentinel
  deriving Repr, DecidableEq

structure PipeState where
  /-- items enqueued by the producer so far (of its total `K`). -/
  produced : Nat
  /-- `None` sentinels enqueued by the orchestrator so far. -/
  sentinelsPut : Nat
  /-- the `asyncio.Queue` content, front first. -/
  queue : List QItem
  /-- workers in `await queue.get()`. -/
  idleW : Nat
  /-- item ids currently being enriched, one per busy worker. -/
  working : List Nat
  /-- workers that dequeued the sentinel but have not yet run `finally`. -/
  sentinelHeld : Nat
  /-- workers that returned. -/
  exitedW : Nat
  /-- item ids appended to `all_nfts` (enrichment succeeded). -/
  processedOk : List Nat
  /-- item ids dropped after a logged enrichment failure. -/
  processedFail : List Nat
  /-- sentinels acknowledged by `task_done`. -/
  sentinelsConsumed : Nat
  /-- the queue's join counter: puts minus `task_done`s. -/
  unfinished : Nat
  deriving Repr, DecidableEq

/-- Interleaving steps of producer, orchestrator and workers for a producer
output of `K` items, `W` workers and queue capacity `cap`.  `putSentinel`
requires `produced = K`: the orchestrator enqueues sentinels only after
`await opensea_task` (nft.py lines 89-93).  `doneOk`/`doneFail` are the two
arms of the worker's `try`/`except`; both run `task_done` in `finally`. -/
inductive pipeStep (K W cap : Nat) : PipeState → PipeState → Prop
  | putItem (s : PipeState) :
      s.produced < K → s.queue.length < cap →
      pipeStep K W cap s
        { s with produced := s.produced + 1,
                 queue := s.queue ++ [QItem.item s.produced],
                 unfinished := s.unfinished + 1 }
  | putSentinel (s : PipeState) :
      s.produced = K → s.sentinelsPut < W → s.queue.length < cap →
      pipeStep K W cap s
        { s with sentinelsPut := s.sentinelsPut + 1,
                 queue := s.queue ++ [QItem.sentinel],
                 unfinished := s.unfinished + 1 }
  | getItem (s : PipeState) (n : Nat) (rest : List QItem) :
      0 < s.idleW → s.queue = QItem.item n :: rest →
      pipeStep K W cap s
        { s with idleW := s.idleW - 1, working := n :: s.working, queue := rest }
  | getSentinel (s : PipeState) (rest : List QItem) :
      0 < s.idleW → s.queue = QItem.sentinel :: rest →
      pipeStep K W cap s
        { s with idleW := s.idleW - 1, sentinelHeld := s.sentinelHeld + 1,
                 queue := rest }
  | doneOk (s : PipeState) (l1 : List Nat) (n : Nat) (l2 : List Nat) :
      s.working = l1 ++ n :: l2 →
      pipeStep K W cap s
        { s with working := l1 ++ l2, processedOk := n :: s.processedOk,
                 idleW := s.idleW + 1, unfinished := s.unfinished - 1 }
  | doneFail (s : PipeState) (l1 : List Nat) (n : Nat) (l2 : List Nat) :
      s.working = l1 ++ n :: l2 →
      pipeStep K W cap s
        { s with working := l1 ++ l2, processedFail := n :: s.processedFail,
                 idleW := s.idleW + 1, unfinished := s.unfinished - 1 }
  | exitWorker (s : PipeState) :
      0 < s.sentinelHeld →
      pipeStep K W cap s
        { s with sentinelHeld := s.sentinelHeld - 1, exitedW := s.exitedW + 1,
                 sentinelsConsumed := s.sentinelsConsumed + 1,
                 unfinished := s.unfinished - 1 }

/-- Initial state: nothing produced, all `W` workers blocked on the empty
queue. -/
def pipeInit (W : Nat) : PipeState :=
  { produced := 0, sentinelsPut := 0, queue := [], idleW := W, working := [],
    sentinelHeld := 0, exitedW := 0, processedOk := [], processedFail := [],
    sentinelsConsumed := 0, unfinished := 0 }

/-- States reachable under some interleaving. -/
def pipeReachable (K W cap : Nat) (s : PipeState) : Prop :=
  Relation.ReflTransGen (pipeStep K W cap) (pipeInit W) s

/-- The item ids sitting in the queue, as a multiset. -/
def queueItems (q : List QItem) : Multiset Nat :=
  ((q.filterMap fun x => match x with
    | QItem.item n => some n
    | QItem.sentinel => none) : List Nat)

/-- The number of sentinels sitting in the queue. -/
def queueSentinels (q : List QItem) : Nat :=
  (q.filter fun x => x = QItem.sentinel).length

/-- `queue.join()` has returned and the orchestrator is back: the producer
finished all `K` items, all `W` sentinels were enqueued, and every put has
been matched by a `task_done`. -/
def pipeDone (K W : Nat) (s : PipeState) : Prop :=
  s.produced = K ∧ s.sentinelsPut = W ∧ s.unfinished = 0

/-! ## Process-wide lifecycle state and `CacheAPI.cleanup_all` (api.py 64-78)

The class-level resources of `CacheAPI`: the optional `_status_task`, the
shared `AsyncRedisCache` connection, and the `_instances` registry.  Instances
are identified by `Nat` ids; `openClients` records whose `AsyncClient` is
still open.  `fails i` says whether awaiting `instance.close()` of instance
`i` raises. -/

structure ApiProcState where
  statusTask : Bool
  cacheOpen : Bool
  registered : List Nat
  openClients : List Nat
  deriving Repr, DecidableEq

/-- The `for instance in list(cls._instances): await instance.close()` loop
(api.py lines 76-77).  There is no `try`/`except` around the `await`: the
first failing close propagates, returning the ids closed so far and the
failing id. -/
def closeLoop (fails : Nat → Bool) (openC : List Nat) :
    List Nat → List Nat × Option Nat
  | [] => (openC, none)
  | i :: rest =>
    if fails i then (openC, some i)
    else closeLoop fails (openC.erase i) rest

/-- `CacheAPI.cleanup_all` (api.py lines 64-78): cancel and await the status
task and null the slot; `await cls.cache.close()`; close every registered
instance in order; `cls._instances.clear()` — which is reached only when no
close raised, since an exception propagates out of the `for` loop.  The
second component is the propagated exception's instance id, when any. -/
def cleanup_all (fails : Nat → Bool) (s : ApiProcState) :
    ApiProcState × Option Nat :=
  let s1 : ApiProcState := { s with statusTask := false }
  let s2 : ApiProcState := { s1 with cacheOpen := false }
  match closeLoop fails s2.openClients s2.registered with
  | (oc, none) => ({ s2 with openClients := oc, registered := [] }, none)
  | (oc, some i) => ({ s2 with openClients := oc }, some i)

/-! ## NFT collectors (`src/pipeline/collectors/nft.py`) -/

/-- One listing page as `get_opensea_nfts` reads it: `response.get("next",
None)` — an absent (or null) `next` field is `none` — and `response.get(
"nfts", [])`, items abstracted to ids. -/
structure ListingPage where
  next : Option String
  nfts : List Nat
  deriving Repr, DecidableEq

/-- The pagination loop of `get_opensea_nfts` (nft.py lines 31-43): fetch the
page for the current cursor, enqueue its items, continue while the server
returns a cursor.  `pages` maps the cursor (`none` on the first request) to
the page; `fuel` bounds the unrolling, `none` meaning the loop has not
finished within `fuel` pages; the result is the full enqueue order. -/
def get_opensea_nfts (pages : Option String → ListingPage) :
    Nat → Option String → List Nat → Option (List Nat)
  | 0, _, _ => none
  | fuel + 1, cursor, acc =>
    let page := pages cursor
    let acc2 := acc ++ page.nfts
    match page.next with
    | none => some acc2
    | some c => get_opensea_nfts pages fuel (some c) acc2

/-- How `get_all_nfts` begins (nft.py lines 50-59): the collection metadata's
`contracts` list decides whether the run aborts.  `aborted` is the
`log.error(...); return` arm for an empty catalog — the run ends early with
no results (the function returns `None`). -/
inductive RunStart where
  | aborted
  | proceeds (chain address : String)
  deriving Repr, DecidableEq

/-- Contract descriptor from the collection metadata. -/
structure ContractInfo where
  address : String
  chain : String
  deriving Repr, DecidableEq

/-- nft.py lines 52-59: abort on an empty `contracts` list, otherwise proceed
with the first contract's chain and address. -/
def get_all_nfts_start (contracts : List ContractInfo) : RunStart :=
  match contracts with
  | [] => RunStart.aborted
  | c :: _ => RunStart.proceeds c.chain c.address

/-- Outcome of the enrichment fetch `get_nft_traits` for one dequeued item. -/
inductive EnrichResult where
  | ok (enriched : Nat)
  | failed (msg : String)
  deriving Repr, DecidableEq

/-- What the worker body does with one dequeued item. -/
inductive WorkerAct where
  | appended (enriched : Nat)
  | droppedLogged
  deriving Repr, DecidableEq

/-- The `try`/`except` of the worker `get_nft` (nft.py lines 70-80) around one
item: a successful enrichment is appended to `all_nfts`; any exception is
caught at the worker boundary, logged with the item, and the item dropped —
the worker loop continues either way (`task_done` runs in `finally`).  This
is a total function: no enrichment outcome escapes the worker. -/
def get_nft_item (r : EnrichResult) : WorkerAct :=
  match r with
  | .ok e => .appended e
  | .failed _ => .droppedLogged

/-! # Theorems -/

/-- C7: for every cache-control string, the computed TTL equals the max-age
seconds plus the stale-while-revalidate seconds when present, except that a
computed value of zero or one exceeding `max_ttl` is clamped to `max_ttl`;
in particular `max-age=60` yields 60, `max-age=60, stale-while-revalidate=30`
yields 90, absent directives yield `max_ttl`, and the result never exceeds
`max_ttl`. -/
theorem C7_calculate_ttl :
    (∀ (max_ttl : Nat) (cc : String),
        calculate_ttl max_ttl cc =
          if get_max_age cc + (swrSeconds cc).getD 0 = 0
              ∨ get_max_age cc + (swrSeconds cc).getD 0 > max_ttl
          then max_ttl
          else get_max_age cc + (swrSeconds cc).getD 0) ∧
    calculate_ttl 86400 "max-age=60" = 60 ∧
    calculate_ttl 86400 "max-age=60, stale-while-revalidate=30" = 90 ∧
    (∀ (max_ttl : Nat) (cc : String),
        get_max_age cc = 0 → swrSeconds cc = none →
        calculate_ttl max_ttl cc = max_ttl) ∧
    (∀ (max_ttl : Nat) (cc : String), calculate_ttl max_ttl cc ≤ max_ttl) := by
  refine ⟨fun max_ttl cc => rfl, by decide, by decide, ?_, ?_⟩
  · intro max_ttl cc h0 hs
    simp [calculate_ttl, h0, hs]
  · intro max_ttl cc
    simp only [calculate_ttl]
    split
    · exact le_rfl
    · omega

/-- Witness for C7: the absent-directives clause applied at `max_ttl = 86400`
and the cache-control string `no-store`, and the never-exceeds clause at
`max_ttl = 100` and `max-age=7000`. -/
theorem C7_calculate_ttl_witness :
    calculate_ttl 86400 "no-store" = 86400 ∧ calculate_ttl 100 "max-age=7000" ≤ 100 :=
  ⟨C7_calculate_ttl.2.2.2.1 86400 "no-store" (by decide) (by decide),
   C7_calculate_ttl.2.2.2.2 100 "max-age=7000"⟩

/-- C8: an entry is stale exactly when the store's remaining TTL for its key
is at most the staleness window `ttl − max_age`; with `ttl = 90`,
`max_age = 60`, a remaining TTL of 25 s is stale and 45 s is not. -/
theorem C8_staleness :
    (∀ (s : Store) (e : CacheEntry) (key : String),
        is_stale s e key = true ↔
          ttlRemaining s key ≤ (e.ttl : Int) - (e.max_age : Int)) ∧
    (∀ (s : Store) (e : CacheEntry) (key : String),
        e.ttl = 90 → e.max_age = 60 →
        (ttlRemaining s key = 25 → is_stale s e key = true) ∧
        (ttlRemaining s key = 45 → is_stale s e key = false)) := by
  constructor
  · intro s e key
    simp [is_stale]
  · intro s e key ht hm
    constructor
    · intro h25
      simp [is_stale, h25, ht, hm]
    · intro h45
      simp [is_stale, h45, ht, hm]

/-- Witness for C8: a store holding an entry with `ttl = 90`, `max_age = 60`
at remaining TTL 25 is stale. -/
theorem C8_staleness_witness :
    is_stale (fun _ => some (⟨200, "u", "GET", "HTTP/2", "max-age=60, stale-while-revalidate=30",
        "", "", 60, 90, "b"⟩, 25)) ⟨200, "u", "GET", "HTTP/2",
        "max-age=60, stale-while-revalidate=30", "", "", 60, 90, "b"⟩ "k" = true :=
  ((C8_staleness.2 _ _ "k" rfl rfl).1 (by simp [ttlRemaining]))

/-- C3: every HTTP error status, the low-level connection failure and the read
timeout named by the `@retry` decorator are classified retryable; the backoff
starts at 1 s and every sleep is capped at 300 s; and the retry loop keeps a
new attempt coming after any number of retryable failures, stopping exactly on
success or on a non-retryable error. -/
theorem C3_retry_policy :
    (∀ c : Nat, retryOn (.httpStatusError c) = true) ∧
    retryOn .remoteProtocolError = true ∧
    retryOn .readTimeout = true ∧
    (∀ r : HResponse, 400 ≤ r.status_code ∧ r.status_code < 600 →
        raise_for_status r = .error (.httpStatusError r.status_code)) ∧
    backoffWait 0 = 1 ∧
    (∀ k : Nat, backoffWait k ≤ 300) ∧
    (∀ (α : Type) (outcomes : Nat → Except FetchError α) (n : Nat),
        (∀ k, k < n → ∃ e, outcomes k = .error e ∧ retryOn e = true) →
        retryState outcomes n = .running) ∧
    (∀ (α : Type) (outcomes : Nat → Except FetchError α) (n : Nat) (v : α),
        retryState outcomes n = .running → outcomes n = .ok v →
        retryState outcomes (n + 1) = .succeeded v) ∧
    (∀ (α : Type) (outcomes : Nat → Except FetchError α) (n : Nat) (e : FetchError),
        retryState outcomes n = .running → outcomes n = .error e →
        retryOn e = false →
        retryState outcomes (n + 1) = .failedNonRetryable e) := by
  refine ⟨fun _ => rfl, rfl, rfl, ?_, rfl, ?_, ?_, ?_, ?_⟩
  · intro r h
    simp [raise_for_status, h]
  · intro k
    simp [backoffWait]
  · intro α outcomes n h
    induction n with
    | zero => rfl
    | succ m ih =>
      have hm : retryState outcomes m = .running :=
        ih (fun k hk => h k (Nat.lt_succ_of_lt hk))
      obtain ⟨e, he, hr⟩ := h m (Nat.lt_succ_self m)
      simp [retryState, hm, he, hr]
  · intro α outcomes n v hrun hok
    simp [retryState, hrun, hok]
  · intro α outcomes n e hrun herr hnr
    simp [retryState, hrun, herr, hnr]

/-- Witness for C3: a run whose first seven attempts all raise `ReadTimeout`
still has the loop running before attempt 7; a 503 response raises the
retryable `HTTPStatusError`. -/
theorem C3_retry_policy_witness :
    retryState (fun _ => (.error .readTimeout : Except FetchError Nat)) 7 = .running ∧
    raise_for_status ⟨503, "u", "GET", "HTTP/2", "", "", "", "b"⟩ =
      .error (.httpStatusError 503) :=
  ⟨C3_retry_policy.2.2.2.2.2.2.1 Nat (fun _ => .error .readTimeout) 7
      (fun k _ => ⟨.readTimeout, rfl, rfl⟩),
   C3_retry_policy.2.2.2.1 ⟨503, "u", "GET", "HTTP/2", "", "", "", "b"⟩ (by decide)⟩

/-- C10 counterexample: a listing page whose `next` cursor field is missing is
not a structural error for `get_opensea_nfts` — `response.get("next", None)`
turns the absent field into `None`, which simply ends the pagination loop:
the producer returns normally with the page's items instead of aborting the
run with no results. -/
theorem C10_missing_cursor_not_error :
    get_opensea_nfts (fun _ => ⟨none, [7]⟩) 5 none [] = some [7] ∧
    get_opensea_nfts (fun _ => ⟨none, [7]⟩) 5 none [] ≠ none := by
  constructor
  · rfl
  · intro h
    simp [get_opensea_nfts] at h

/-- C10 amended: an empty catalog (no contracts for the collection) aborts the
run early with no results, and per-item enrichment failures are absorbed at
the worker boundary and never abort the run; but a missing cursor field in a
listing page is not an error — it ends pagination normally and the collected
items are kept. -/
theorem C10_structural_errors :
    (∀ contracts : List ContractInfo, contracts = [] →
        get_all_nfts_start contracts = .aborted) ∧
    (∀ (c : ContractInfo) (rest : List ContractInfo),
        get_all_nfts_start (c :: rest) = .proceeds c.chain c.address) ∧
    (∀ (pages : Option String → ListingPage) (fuel : Nat) (cursor : Option String)
        (acc : List Nat),
        (pages cursor).next = none →
        get_opensea_nfts pages (fuel + 1) cursor acc = some (acc ++ (pages cursor).nfts)) ∧
    (∀ e : Nat, get_nft_item (.ok e) = .appended e) ∧
    (∀ msg : String, get_nft_item (.failed msg) = .droppedLogged) := by
  refine ⟨?_, fun c rest => rfl, ?_, fun e => rfl, fun msg => rfl⟩
  · intro contracts h
    subst h
    rfl
  · intro pages fuel cursor acc h
    simp [get_opensea_nfts, h]

/-- Witness for C10: the empty-catalog clause at the empty contract list, and
the end-of-pagination clause at a concrete one-page listing. -/
theorem C10_structural_errors_witness :
    get_all_nfts_start [] = .aborted ∧
    get_opensea_nfts (fun _ => ⟨none, [1, 2]⟩) 4 none [] = some ([] ++ [1, 2]) :=
  ⟨C10_structural_errors.1 [] rfl,
   C10_structural_errors.2.2.1 (fun _ => ⟨none, [1, 2]⟩) 3 none [] rfl⟩

/-- C9 counterexample: with two registered instances whose first close raises,
`cleanup_all` propagates the exception from the bare `await instance.close()`
loop — the second instance's client is never closed and
`cls._instances.clear()` is never reached, contradicting "closes every
registered instance's network resources even if closing some of them fails
... and clears the registry". -/
theorem C9_close_failure_aborts_cleanup :
    (cleanup_all (fun i => i = 1) ⟨true, true, [1, 2], [1, 2]⟩).1.registered = [1, 2] ∧
    (cleanup_all (fun i => i = 1) ⟨true, true, [1, 2], [1, 2]⟩).1.openClients = [1, 2] ∧
    (cleanup_all (fun i => i = 1) ⟨true, true, [1, 2], [1, 2]⟩).2 = some 1 := by
  refine ⟨?_, ?_, ?_⟩ <;> rfl

/-- C9 amended: every invocation of `cleanup_all` cancels the status task and
closes the shared cache connection; when no instance close fails it closes
every registered instance, clears the registry, and a repeated invocation is
then a no-op (idempotence); but when closing instance `i` fails, only the
instances registered before `i` have been closed, the exception propagates,
and the registry is left intact. -/
theorem C9_cleanup_all :
    (∀ (f : Nat → Bool) (s : ApiProcState),
        (cleanup_all f s).1.statusTask = false ∧
        (cleanup_all f s).1.cacheOpen = false) ∧
    (∀ (f : Nat → Bool) (s : ApiProcState),
        (∀ i ∈ s.registered, f i = false) →
        (cleanup_all f s).2 = none ∧
        (cleanup_all f s).1.registered = [] ∧
        (cleanup_all f s).1.openClients =
          s.registered.foldl (fun acc i => acc.erase i) s.openClients) ∧
    (∀ (f g : Nat → Bool) (s : ApiProcState),
        (cleanup_all f s).2 = none →
        cleanup_all g (cleanup_all f s).1 = ((cleanup_all f s).1, none)) ∧
    (∀ (f : Nat → Bool) (s : ApiProcState) (l1 : List Nat) (i : Nat) (l2 : List Nat),
        s.registered = l1 ++ i :: l2 →
        (∀ j ∈ l1, f j = false) →
        f i = true →
        (cleanup_all f s).2 = some i ∧
        (cleanup_all f s).1.registered = s.registered ∧
        (cleanup_all f s).1.openClients =
          l1.foldl (fun acc j => acc.erase j) s.openClients) := by
  have closeLoop_ok : ∀ (f : Nat → Bool) (l : List Nat) (oc : List Nat),
      (∀ i ∈ l, f i = false) →
      closeLoop f oc l = (l.foldl (fun acc i => acc.erase i) oc, none) := by
    intro f l
    induction l with
    | nil => intro oc _; rfl
    | cons i rest ih =>
      intro oc h
      have hi : f i = false := h i (List.mem_cons_self i rest)
      simp only [closeLoop, hi, Bool.false_eq_true, if_false, List.foldl_cons]
      exact ih (oc.erase i) (fun j hj => h j (List.mem_cons_of_mem i hj))
  have closeLoop_fail : ∀ (f : Nat → Bool) (l1 : List Nat) (i : Nat) (l2 : List Nat)
      (oc : List Nat),
      (∀ j ∈ l1, f j = false) → f i = true →
      closeLoop f oc (l1 ++ i :: l2) =
        (l1.foldl (fun acc j => acc.erase j) oc, some i) := by
    intro f l1
    induction l1 with
    | nil =>
      intro i l2 oc _ hi
      simp [closeLoop, hi]
    | cons j rest ih =>
      intro i l2 oc h hi
      have hj : f j = false := h j (List.mem_cons_self j rest)
      simp only [List.cons_append, closeLoop, hj, Bool.false_eq_true, if_false,
        List.foldl_cons]
      exact ih i l2 (oc.erase j) (fun x hx => h x (List.mem_cons_of_mem j hx)) hi
  have hdef : ∀ (f : Nat → Bool) (s : ApiProcState),
      cleanup_all f s =
        match closeLoop f s.openClients s.registered with
        | (oc, none) => (⟨false, false, [], oc⟩, none)
        | (oc, some i) => (⟨false, false, s.registered, oc⟩, some i) := by
    intro f s
    rfl
  refine ⟨?_, ?_, ?_, ?_⟩
  · intro f s
    rcases h : closeLoop f s.openClients s.registered with ⟨oc, err⟩
    cases err <;> simp [hdef, h]
  · intro f s h
    rw [hdef, closeLoop_ok f s.registered s.openClients h]
    exact ⟨rfl, rfl, rfl⟩
  · intro f g s h
    rcases hc : closeLoop f s.openClients s.registered with ⟨oc, err⟩
    cases err with
    | none =>
      rw [hdef f s, hc]
      rw [hdef g ⟨false, false, [], oc⟩]
      simp [closeLoop]
    | some i =>
      rw [hdef f s, hc] at h
      simp at h
  · intro f s l1 i l2 hreg h1 hi
    rw [hdef]
    rw [hreg, closeLoop_fail f l1 i l2 s.openClients h1 hi]
    simp [hreg]

/-- Witness for C9: the success clause applied at a two-instance registry with
no failing close, and the failure clause at the concrete registry `[1, 2]`
whose instance 2 fails to close. -/
theorem C9_cleanup_all_witness :
    (cleanup_all (fun _ => false) ⟨true, true, [1, 2], [1, 2]⟩).1.registered = [] ∧
    (cleanup_all (fun i => i = 2) ⟨true, true, [1, 2], [1, 2]⟩).2 = some 2 :=
  ⟨(C9_cleanup_all.2.1 (fun _ => false) ⟨true, true, [1, 2], [1, 2]⟩
      (fun i _ => rfl)).2.1,
   (C9_cleanup_all.2.2.2 (fun i => i = 2) ⟨true, true, [1, 2], [1, 2]⟩ [1] 2 []
      rfl (by decide) (by decide)).1⟩

/-! ## Fixtures for C1: revalidation persistence

A stale cached entry whose cache-control carries `stale-while-revalidate`
(hence revalidation is dispatched as a detached background task) and an etag,
plus the server's possible replies to the conditional GET; and a second,
`stale-while-revalidate`-free entry exercising the synchronous path. -/

def c1Url : String := "https://api.example.com/a"

def c1Key : String := build_cache_key "api" c1Url [] "v1"

def c1Entry : CacheEntry :=
  ⟨200, c1Url, "GET", "HTTP/2", "max-age=60, stale-while-revalidate=600",
   "W/\"abc\"", "", 60, 660, "old"⟩

def c1Store : Store := fun k => if k = c1Key then some (c1Entry, 10) else none

def c1Resp200 : HResponse :=
  ⟨200, c1Url, "GET", "HTTP/2", "max-age=60, stale-while-revalidate=600",
   "W/\"abc2\"", "", "new"⟩

def c1Resp304 : HResponse :=
  ⟨304, c1Url, "GET", "HTTP/2", "max-age=60, stale-while-revalidate=600",
   "W/\"abc\"", "", ""⟩

def c1SyncEntry : CacheEntry :=
  ⟨200, c1Url, "GET", "HTTP/2", "max-age=60", "W/\"abc\"", "", 60, 60, "old"⟩

def c1SyncStore : Store := fun k => if k = c1Key then some (c1SyncEntry, 0) else none

def c1SyncResp : HResponse :=
  ⟨200, c1Url, "GET", "HTTP/2", "max-age=60", "W/\"s2\"", "", "new2"⟩

/-- C1: evaluation of the code at the failing input.  The stale
`stale-while-revalidate` entry makes `get` dispatch the conditional GET as a
detached task and serve the stale body; but the detached task runs only
`_validate_response`, whose entire store effect on a 200 is *nothing* — the
fresh body `"new"` is discarded and the store keeps `"old"`, although the
claim (and `_validate_response`'s own docstring, "update cache if resource
was updated") requires a 200 to replace the stored entry.  By contrast a 304
from the detached task refreshes only the TTL, and a *synchronous* 200
revalidation does replace the entry wholesale (api.py lines 211-214). -/
theorem C1_revalidation_persistence :
    (cacheGet "api" c1Store c1Url [] [] (fun _ => .error (.otherError "na"))
        c1Resp200).bgReval = some c1Resp200 ∧
    (cacheGet "api" c1Store c1Url [] [] (fun _ => .error (.otherError "na"))
        c1Resp200).result = .ok "old" ∧
    validate_response c1Store c1Key c1Resp200 = c1Store ∧
    entryAt c1Store c1Key = some c1Entry ∧
    c1Entry.body = "old" ∧
    c1Resp200.body = "new" ∧
    entryAt (validate_response c1Store c1Key c1Resp304) c1Key = some c1Entry ∧
    ttlRemaining (validate_response c1Store c1Key c1Resp304) c1Key = 660 ∧
    entryAt (cacheGet "api" c1SyncStore c1Url [] [] (fun _ => .error (.otherError "na"))
        c1SyncResp).store c1Key = some (entryOfResponse c1SyncResp) ∧
    (cacheGet "api" c1SyncStore c1Url [] [] (fun _ => .error (.otherError "na"))
        c1SyncResp).result = .ok "new2" := by
  have hlook : c1Store (build_cache_key "api" c1Url [] "v1") = some (c1Entry, 10) := by
    simp [c1Store, c1Key]
  have hstale : is_stale c1Store c1Entry (build_cache_key "api" c1Url [] "v1") = true := by
    simp [is_stale, ttlRemaining, hlook]
    decide
  have hnc : containsCI "max-age=60, stale-while-revalidate=600" "no-cache" = false := by
    decide
  have hswr : containsCI "max-age=60, stale-while-revalidate=600"
      "stale-while-revalidate" = true := by decide
  have hlookS : c1SyncStore (build_cache_key "api" c1Url [] "v1")
      = some (c1SyncEntry, 0) := by
    simp [c1SyncStore, c1Key]
  have hstaleS : is_stale c1SyncStore c1SyncEntry
      (build_cache_key "api" c1Url [] "v1") = true := by
    simp [is_stale, ttlRemaining, hlookS]
    decide
  have hncS : containsCI "max-age=60" "no-cache" = false := by decide
  have hswrS : containsCI "max-age=60" "stale-while-revalidate" = false := by decide
  simp only [c1Entry] at hstale
  simp only [c1SyncEntry] at hstaleS
  refine ⟨?_, ?_, ?_, ?_, rfl, rfl, ?_, ?_, ?_, ?_⟩
  · simp [cacheGet, hlook, hstale, hnc, hswr, c1Entry]
  · simp [cacheGet, hlook, hstale, hnc, hswr, c1Entry]
  · funext k
    simp [validate_response, c1Resp200]
  · simp [entryAt, c1Store]
  · simp [validate_response, c1Resp304, set_cache, storeExpire, entryAt, c1Store, c1Key]
  · have : calculate_ttl maxTtlDefault "max-age=60, stale-while-revalidate=600" = 660 := by
      decide
    simp [validate_response, c1Resp304, set_cache, storeExpire, ttlRemaining,
      c1Store, c1Key, this]
  · simp [cacheGet, hlookS, hstaleS, hncS, hswrS, c1SyncEntry, validate_response,
      c1SyncResp, set_cache, storeSet, entryAt, c1Key]
  · simp [cacheGet, hlookS, hstaleS, hncS, hswrS, c1SyncEntry, c1SyncResp]

/-- The cache key used by a `get` call is always
`build_cache_key ns url headers "v1"`, whatever the store content, params and
network oracles. -/
theorem cacheGet_keyUsed (ns : String) (s : Store) (url : String)
    (params headers : List (String × String))
    (nf : List (String × String) → Except FetchError HResponse) (rv : HResponse) :
    (cacheGet ns s url params headers nf rv).keyUsed =
      build_cache_key ns url headers "v1" := by
  unfold cacheGet
  rcases h : s (build_cache_key ns url headers "v1") with _ | ⟨e, rem⟩
  · rcases hn : nf params with e | r <;> simp [h, hn]
  · simp only [h]
    split_ifs <;> rfl

/-! ## Fixtures for C2: aliasing of calls that differ only in `params` -/

def c2Url : String := "https://api.opensea.io/api/v2/chain/ethereum/contract/0xabc/nfts"

def c2Key : String := build_cache_key "opensea" c2Url [] "v1"

def c2Entry : CacheEntry :=
  ⟨200, c2Url, "GET", "HTTP/2", "no-cache", "W/\"e1\"", "", 0, 86400, "old"⟩

def c2Store : Store := fun k => if k = c2Key then some (c2Entry, 86400) else none

def c2Resp : HResponse :=
  ⟨200, c2Url, "GET", "HTTP/2", "no-cache", "W/\"e2\"", "", "new"⟩

/-- C2 counterexample to the claim's final clause, at a concrete input: the
cached entry for the key carries `no-cache` and an etag, so a later call
differing only in params triggers a synchronous conditional GET; when the
server answers 200, the call is served the revalidation body `"new"`, not
"that same cached body" `"old"`. -/
theorem C2_counterexample_sync200 :
    entryAt c2Store c2Key = some c2Entry ∧
    c2Entry.body = "old" ∧
    (cacheGet "opensea" c2Store c2Url [("limit", "200"), ("next", "cursorB")] []
        (fun _ => .error (.otherError "na")) c2Resp).keyUsed = c2Key ∧
    (cacheGet "opensea" c2Store c2Url [("limit", "200"), ("next", "cursorB")] []
        (fun _ => .error (.otherError "na")) c2Resp).result = .ok "new" ∧
    ((Except.ok "new" : Except FetchError String) ≠ .ok "old") := by
  have hlook : c2Store (build_cache_key "opensea" c2Url [] "v1")
      = some (c2Entry, 86400) := by
    simp [c2Store, c2Key]
  have hnc : containsCI "no-cache" "no-cache" = true := by decide
  have hswr : containsCI "no-cache" "stale-while-revalidate" = false := by decide
  refine ⟨?_, rfl, ?_, ?_, by simp⟩
  · simp [entryAt, c2Store]
  · simp [cacheGet, hlook, hnc, hswr, c2Entry, c2Key, c2Resp]
  · simp [cacheGet, hlook, hnc, hswr, c2Entry, c2Resp]

/-- C2 amended: the cache key depends only on the namespace, url and
allow-listed headers — never on `params` — so calls that differ only in
params share one cache entry; on a hit the entire call (store effect and
result) is independent of the params and of the network-fetch oracle, and it
is served the cached body except that a synchronous 200 revalidation serves
(and stores) the revalidation body instead; a prior miss stores the fetched
response under that shared key. -/
theorem C2_cache_key_ignores_params :
    (∀ (ns : String) (s : Store) (url : String)
        (p1 p2 h : List (String × String))
        (nf : List (String × String) → Except FetchError HResponse)
        (rv : HResponse),
        (cacheGet ns s url p1 h nf rv).keyUsed =
          (cacheGet ns s url p2 h nf rv).keyUsed) ∧
    (∀ (ns url : String) (h1 h2 : List (String × String)) (v : String),
        relevant_headers h1 = relevant_headers h2 →
        build_cache_key ns url h1 v = build_cache_key ns url h2 v) ∧
    (∀ (ns : String) (s : Store) (url : String)
        (p1 p2 h : List (String × String))
        (nf1 nf2 : List (String × String) → Except FetchError HResponse)
        (rv : HResponse) (e : CacheEntry) (rem : Int),
        s (build_cache_key ns url h "v1") = some (e, rem) →
        cacheGet ns s url p1 h nf1 rv = cacheGet ns s url p2 h nf2 rv) ∧
    (∀ (ns : String) (s : Store) (url : String) (p h : List (String × String))
        (nf : List (String × String) → Except FetchError HResponse)
        (rv : HResponse) (e : CacheEntry) (rem : Int),
        s (build_cache_key ns url h "v1") = some (e, rem) →
        (cacheGet ns s url p h nf rv).result = .ok e.body ∨
        ((cacheGet ns s url p h nf rv).revalIssued = true ∧
         (cacheGet ns s url p h nf rv).result = .ok rv.body)) ∧
    (∀ (ns url : String) (p h : List (String × String)) (r rv : HResponse),
        containsCI r.cache_control "no-store" = false →
        (cacheGet ns emptyStore url p h (fun _ => .ok r) rv).store
            (build_cache_key ns url h "v1") =
          some (entryOfResponse r, (calculate_ttl maxTtlDefault r.cache_control : Int))) := by
  refine ⟨?_, ?_, ?_, ?_, ?_⟩
  · intro ns s url p1 p2 h nf rv
    rw [cacheGet_keyUsed, cacheGet_keyUsed]
  · intro ns url h1 h2 v h12
    unfold build_cache_key payloadJson
    rw [h12]
  · intro ns s url p1 p2 h nf1 nf2 rv e rem hs
    simp only [cacheGet, hs]
  · intro ns s url p h nf rv e rem hs
    simp only [cacheGet, hs]
    split_ifs <;> simp
  · intro ns url p h r rv hns
    simp [cacheGet, emptyStore, hns, set_cache, storeSet]

/-- Witness for C2: on the concrete store holding the `no-cache` entry, two
calls that differ in params (and even in their fetch oracle) are literally
the same computation. -/
theorem C2_cache_key_ignores_params_witness :
    cacheGet "opensea" c2Store c2Url [("limit", "200")] []
        (fun _ => .error (.otherError "a")) c2Resp =
      cacheGet "opensea" c2Store c2Url [("limit", "200"), ("next", "B")] []
        (fun _ => .error (.otherError "b")) c2Resp :=
  C2_cache_key_ignores_params.2.2.1 "opensea" c2Store c2Url
    [("limit", "200")] [("limit", "200"), ("next", "B")] []
    (fun _ => .error (.otherError "a")) (fun _ => .error (.otherError "b"))
    c2Resp c2Entry 86400 (by simp [c2Store, c2Key])

/-- C6: on a cache hit, a conditional revalidation request is issued exactly
when the cached cache-control contains `no-cache`, or contains
`must-revalidate` and the entry is stale, or the entry is stale by itself —
provided a validator (etag or last-modified) is present; when revalidation is
needed but neither validator exists, no network request is made, the store is
untouched, and the cached body is returned as-is. -/
theorem C6_revalidation_decision :
    ∀ (ns : String) (s : Store) (url : String)
      (params headers : List (String × String))
      (nf : List (String × String) → Except FetchError HResponse)
      (rv : HResponse) (e : CacheEntry) (rem : Int),
      s (build_cache_key ns url headers "v1") = some (e, rem) →
      ((cacheGet ns s url params headers nf rv).revalIssued =
        ((containsCI e.cache_control "no-cache" ||
            (containsCI e.cache_control "must-revalidate" &&
              is_stale s e (build_cache_key ns url headers "v1")) ||
            is_stale s e (build_cache_key ns url headers "v1")) &&
          !(decide (e.etag = "") && decide (e.last_modified = "")))) ∧
      ((containsCI e.cache_control "no-cache" ||
          (containsCI e.cache_control "must-revalidate" &&
            is_stale s e (build_cache_key ns url headers "v1")) ||
          is_stale s e (build_cache_key ns url headers "v1")) = true →
        e.etag = "" → e.last_modified = "" →
        (cacheGet ns s url params headers nf rv).netIssued = false ∧
        (cacheGet ns s url params headers nf rv).result = .ok e.body ∧
        (cacheGet ns s url params headers nf rv).store = s) := by
  intro ns s url params headers nf rv e rem hs
  constructor
  · simp only [cacheGet, hs]
    by_cases he : e.etag = ""
    · by_cases hl : e.last_modified = ""
      · simp [he, hl]
      · simp only [he, hl]
        split_ifs with h1 h2 h3 <;> simp_all
    · simp only [he]
      split_ifs with h1 h2 h3 <;> simp_all
  · intro hcond he hl
    simp [cacheGet, hs, he, hl]

/-! Fixtures for the C6 witness: a `no-cache` entry with no validators. -/

def c6Key : String := build_cache_key "n" "u" [] "v1"

def c6Entry : CacheEntry :=
  ⟨200, "u", "GET", "HTTP/2", "no-cache", "", "", 0, 86400, "b"⟩

def c6Store : Store := fun k => if k = c6Key then some (c6Entry, 86400) else none

def c6Rv : HResponse := ⟨200, "u", "GET", "HTTP/2", "", "", "", "x"⟩

/-- Witness for C6: the cached `no-cache` entry carries neither etag nor
last-modified, so the hit makes no network request and serves the cached body
with the store untouched. -/
theorem C6_revalidation_decision_witness :
    (cacheGet "n" c6Store "u" [] [] (fun _ => .error (.otherError "y")) c6Rv).netIssued
        = false ∧
    (cacheGet "n" c6Store "u" [] [] (fun _ => .error (.otherError "y")) c6Rv).result
        = .ok "b" ∧
    (cacheGet "n" c6Store "u" [] [] (fun _ => .error (.otherError "y")) c6Rv).store
        = c6Store :=
  (C6_revalidation_decision "n" c6Store "u" [] []
      (fun _ => .error (.otherError "y")) c6Rv c6Entry 86400
      (by simp [c6Store, c6Key])).2
    (by rw [show containsCI c6Entry.cache_control "no-cache" = true from by decide]
        simp)
    rfl rfl

/-- C4 amended: in every reachable interleaving state, at most `N` `get`
calls hold the concurrency limiter — so at most `N` requests issued from
`get` bodies (miss fetches and synchronous revalidations) are in flight — and
the slot is released on every exit path, normal or exceptional (`finished`
calls hold nothing: the caller population is conserved outside the limiter);
total in-flight requests are bounded only by `N` plus the pending detached
background revalidation requests, which run outside the limiter. -/
theorem C4_concurrency_bound :
    ∀ (N M : Nat) (s : ClientTasks), clientReachable N M s →
      s.inBody + s.inRequest ≤ N ∧
      s.inRequest ≤ N ∧
      requestsInFlight s ≤ N + s.bgRequest ∧
      s.waiting + s.inBody + s.inRequest + s.finished = M := by
  intro N M s h
  induction h with
  | refl => simp [clientInit, requestsInFlight]
  | tail hab hstep ih =>
    cases hstep <;>
      (simp only [requestsInFlight] at ih ⊢; omega)

/-- Witness for C4's amended bound: the initial state of five callers on an
instance with `max_concurrency = 3` satisfies the invariant. -/
theorem C4_concurrency_bound_witness :
    (clientInit 5).inBody + (clientInit 5).inRequest ≤ 3 ∧
    (clientInit 5).inRequest ≤ 3 ∧
    requestsInFlight (clientInit 5) ≤ 3 + (clientInit 5).bgRequest ∧
    (clientInit 5).waiting + (clientInit 5).inBody + (clientInit 5).inRequest +
        (clientInit 5).finished = 5 :=
  C4_concurrency_bound 3 5 (clientInit 5) Relation.ReflTransGen.refl

/-- C4 counterexample: with `max_concurrency = 1` and two callers, the claim
"no more than N outbound requests in flight" fails.  One `get` hits a
`stale-while-revalidate` entry, spawns the detached revalidation task
(api.py line 206) and exits, releasing its slot; a second `get` then acquires
the slot and starts its fetch while the detached task — whose
`_validate_response` never touches `_semaphore` — starts its conditional GET:
two outbound requests of the instance are in flight simultaneously. -/
theorem C4_counterexample_bg_request :
    clientReachable 1 2 ⟨0, 0, 1, 0, 1, 1⟩ ∧
    1 < requestsInFlight ⟨0, 0, 1, 0, 1, 1⟩ := by
  refine ⟨?_, by decide⟩
  exact Relation.ReflTransGen.head
    (show clientStep 1 (clientInit 2) ⟨1, 1, 0, 0, 0, 0⟩ from
      clientStep.acquire (clientInit 2) (by decide) (by decide))
    (Relation.ReflTransGen.head
      (show clientStep 1 ⟨1, 1, 0, 0, 0, 0⟩ ⟨1, 1, 0, 1, 0, 0⟩ from
        clientStep.spawnBg ⟨1, 1, 0, 0, 0, 0⟩ (by decide))
      (Relation.ReflTransGen.head
        (show clientStep 1 ⟨1, 1, 0, 1, 0, 0⟩ ⟨1, 0, 0, 1, 0, 1⟩ from
          clientStep.releaseOk ⟨1, 1, 0, 1, 0, 0⟩ (by decide))
        (Relation.ReflTransGen.head
          (show clientStep 1 ⟨1, 0, 0, 1, 0, 1⟩ ⟨0, 1, 0, 1, 0, 1⟩ from
            clientStep.acquire ⟨1, 0, 0, 1, 0, 1⟩ (by decide) (by decide))
          (Relation.ReflTransGen.head
            (show clientStep 1 ⟨0, 1, 0, 1, 0, 1⟩ ⟨0, 0, 1, 1, 0, 1⟩ from
              clientStep.reqStart ⟨0, 1, 0, 1, 0, 1⟩ (by decide))
            (Relation.ReflTransGen.head
              (show clientStep 1 ⟨0, 0, 1, 1, 0, 1⟩ ⟨0, 0, 1, 0, 1, 1⟩ from
                clientStep.bgReqStart ⟨0, 0, 1, 1, 0, 1⟩ (by decide))
              Relation.ReflTransGen.refl)))))

/-! ## Queue bookkeeping lemmas for the pipeline invariant -/

theorem queueItems_nil : queueItems [] = 0 := rfl

theorem queueSentinels_nil : queueSentinels [] = 0 := rfl

theorem queueItems_append_item (q : List QItem) (n : Nat) :
    queueItems (q ++ [QItem.item n]) = queueItems q + {n} := by
  simp [queueItems, List.filterMap_append, ← Multiset.coe_add]

theorem queueItems_append_sentinel (q : List QItem) :
    queueItems (q ++ [QItem.sentinel]) = queueItems q := by
  simp [queueItems, List.filterMap_append]

theorem queueItems_cons_item (n : Nat) (rest : List QItem) :
    queueItems (QItem.item n :: rest) = {n} + queueItems rest := by
  simp [queueItems, List.filterMap_cons, Multiset.singleton_add, Multiset.cons_coe]

theorem queueItems_cons_sentinel (rest : List QItem) :
    queueItems (QItem.sentinel :: rest) = queueItems rest := by
  simp [queueItems, List.filterMap_cons]

theorem queueSentinels_append_item (q : List QItem) (n : Nat) :
    queueSentinels (q ++ [QItem.item n]) = queueSentinels q := by
  simp [queueSentinels, List.filter_append]

theorem queueSentinels_append_sentinel (q : List QItem) :
    queueSentinels (q ++ [QItem.sentinel]) = queueSentinels q + 1 := by
  simp [queueSentinels, List.filter_append]

theorem queueSentinels_cons_item (n : Nat) (rest : List QItem) :
    queueSentinels (QItem.item n :: rest) = queueSentinels rest := by
  simp [queueSentinels]

theorem queueSentinels_cons_sentinel (rest : List QItem) :
    queueSentinels (QItem.sentinel :: rest) = queueSentinels rest + 1 := by
  simp [queueSentinels, List.filter_cons]

/-- The inductive invariant of the pipeline: (items in the queue) + (items
held by busy workers) + (items processed to success or logged failure) is
exactly one copy of each produced item; sentinels in the queue, held, and
consumed account for every sentinel put; the queue's join counter counts the
enqueued values not yet acknowledged; production and sentinel counts respect
their totals. -/
def pipeInv (K W : Nat) (s : PipeState) : Prop :=
  queueItems s.queue + ↑s.working + ↑s.processedOk + ↑s.processedFail
      = Multiset.range s.produced ∧
  queueSentinels s.queue + s.sentinelHeld + s.sentinelsConsumed = s.sentinelsPut ∧
  s.unfinished = s.queue.length + s.working.length + s.sentinelHeld ∧
  s.produced ≤ K ∧
  s.sentinelsPut ≤ W

/-- Every reachable pipeline state satisfies the invariant. -/
theorem pipeReachable_inv (K W cap : Nat) (s : PipeState)
    (h : pipeReachable K W cap s) : pipeInv K W s := by
  induction h with
  | refl =>
    unfold pipeInv
    refine ⟨?_, ?_, ?_, ?_, ?_⟩ <;> simp [pipeInit, queueItems, queueSentinels]
  | tail hab hstep ih =>
    unfold pipeInv at ih ⊢
    obtain ⟨ih1, ih2, ih3, ih4, ih5⟩ := ih
    cases hstep with
    | putItem hK hcap =>
      dsimp only
      refine ⟨?_, ?_, ?_, ?_, ?_⟩
      · rw [queueItems_append_item, Multiset.range_succ, ← Multiset.singleton_add,
          ← ih1]
        abel
      · rw [queueSentinels_append_item]
        exact ih2
      · rw [List.length_append]
        simp only [List.length_cons, List.length_nil]
        omega
      · omega
      · exact ih5
    | putSentinel hK hW hcap =>
      dsimp only
      refine ⟨?_, ?_, ?_, ?_, ?_⟩
      · rw [queueItems_append_sentinel]
        exact ih1
      · rw [queueSentinels_append_sentinel]
        omega
      · rw [List.length_append]
        simp only [List.length_cons, List.length_nil]
        omega
      · exact ih4
      · omega
    | getItem n rest hW hq =>
      dsimp only
      rw [hq] at ih1 ih2 ih3
      rw [queueItems_cons_item] at ih1
      rw [queueSentinels_cons_item] at ih2
      refine ⟨?_, ih2, ?_, ih4, ih5⟩
      · rw [← ih1]
        simp only [← Multiset.cons_coe, ← Multiset.singleton_add]
        abel
      · simp only [List.length_cons] at ih3 ⊢
        omega
    | getSentinel rest hW hq =>
      dsimp only
      rw [hq] at ih1 ih2 ih3
      rw [queueItems_cons_sentinel] at ih1
      rw [queueSentinels_cons_sentinel] at ih2
      refine ⟨ih1, ?_, ?_, ih4, ih5⟩
      · omega
      · simp only [List.length_cons] at ih3
        omega
    | doneOk l1 n l2 hw =>
      dsimp only
      rw [hw] at ih1 ih3
      refine ⟨?_, ih2, ?_, ih4, ih5⟩
      · rw [← ih1]
        simp only [← Multiset.cons_coe, ← Multiset.coe_add, ← Multiset.singleton_add]
        abel
      · simp only [List.length_append, List.length_cons] at ih3 ⊢
        omega
    | doneFail l1 n l2 hw =>
      dsimp only
      rw [hw] at ih1 ih3
      refine ⟨?_, ih2, ?_, ih4, ih5⟩
      · rw [← ih1]
        simp only [← Multiset.cons_coe, ← Multiset.coe_add, ← Multiset.singleton_add]
        abel
      · simp only [List.length_append, List.length_cons] at ih3 ⊢
        omega
    | exitWorker hheld =>
      dsimp only
      exact ⟨ih1, by omega, by omega, ih4, ih5⟩

/-- C5: for a producer output of `K` items and `W` workers, in every reachable
state in which the orchestrator's shutdown protocol has completed — producer
done, one sentinel enqueued per worker, and `queue.join()` returned because
every enqueued value was marked processed — the processed collection
(successes plus logged failures) is exactly one copy of each of the `K`
items (none lost, none processed twice), exactly `W` sentinels were consumed,
and queue and workers are drained; this holds under any interleaving of the
tasks. -/
theorem C5_drain_completeness :
    ∀ (K W cap : Nat) (s : PipeState),
      pipeReachable K W cap s → pipeDone K W s →
      ((s.processedOk : Multiset Nat) + (s.processedFail : Multiset Nat)
          = Multiset.range K) ∧
      s.processedOk.length + s.processedFail.length = K ∧
      s.sentinelsConsumed = W ∧
      s.queue = [] ∧
      s.working = [] ∧
      s.sentinelHeld = 0 := by
  intro K W cap s hreach hdone
  obtain ⟨h1, h2, h3, h4, h5⟩ := pipeReachable_inv K W cap s hreach
  obtain ⟨hp, hsp, hu⟩ := hdone
  have hlen : s.queue.length = 0 ∧ s.working.length = 0 ∧ s.sentinelHeld = 0 := by
    omega
  have hqe : s.queue = [] := List.length_eq_zero.mp hlen.1
  have hwe : s.working = [] := List.length_eq_zero.mp hlen.2.1
  rw [hqe, hwe, hp] at h1
  rw [hqe] at h2
  simp only [queueItems_nil, Multiset.coe_nil, zero_add, add_zero] at h1
  have hcard := congrArg Multiset.card h1
  simp only [Multiset.card_add, Multiset.coe_card, Multiset.card_range] at hcard
  refine ⟨h1, hcard, ?_, hqe, hwe, hlen.2.2⟩
  have hqs : queueSentinels [] = 0 := rfl
  omega

/-- The terminal state of the concrete one-item, one-worker run used as the
C5 witness. -/
def c5Final : PipeState :=
  ⟨1, 1, [], 0, [], 0, 1, [0], [], 1, 0⟩

/-- Witness for C5: a complete interleaving with `K = 1`, `W = 1`,
`cap = 500` — produce item 0, enqueue the sentinel, worker processes the item
successfully, consumes the sentinel and exits — reaches `c5Final`, where the
drain-completeness conclusions hold. -/
theorem C5_drain_completeness_witness :
    ((c5Final.processedOk : Multiset Nat) + (c5Final.processedFail : Multiset Nat)
        = Multiset.range 1) ∧
    c5Final.processedOk.length + c5Final.processedFail.length = 1 ∧
    c5Final.sentinelsConsumed = 1 ∧
    c5Final.queue = [] ∧
    c5Final.working = [] ∧
    c5Final.sentinelHeld = 0 := by
  have hchain : pipeReachable 1 1 500 c5Final := by
    exact Relation.ReflTransGen.head
      (show pipeStep 1 1 500 (pipeInit 1) ⟨1, 0, [QItem.item 0], 1, [], 0, 0, [], [], 0, 1⟩ from
        pipeStep.putItem (pipeInit 1) (by decide) (by decide))
      (Relation.ReflTransGen.head
        (show pipeStep 1 1 500 ⟨1, 0, [QItem.item 0], 1, [], 0, 0, [], [], 0, 1⟩
            ⟨1, 1, [QItem.item 0, QItem.sentinel], 1, [], 0, 0, [], [], 0, 2⟩ from
          pipeStep.putSentinel ⟨1, 0, [QItem.item 0], 1, [], 0, 0, [], [], 0, 1⟩
            (by decide) (by decide) (by decide))
        (Relation.ReflTransGen.head
          (show pipeStep 1 1 500 ⟨1, 1, [QItem.item 0, QItem.sentinel], 1, [], 0, 0, [], [], 0, 2⟩
              ⟨1, 1, [QItem.sentinel], 0, [0], 0, 0, [], [], 0, 2⟩ from
            pipeStep.getItem ⟨1, 1, [QItem.item 0, QItem.sentinel], 1, [], 0, 0, [], [], 0, 2⟩
              0 [QItem.sentinel] (by decide) rfl)
          (Relation.ReflTransGen.head
            (show pipeStep 1 1 500 ⟨1, 1, [QItem.sentinel], 0, [0], 0, 0, [], [], 0, 2⟩
                ⟨1, 1, [QItem.sentinel], 1, [], 0, 0, [0], [], 0, 1⟩ from
              pipeStep.doneOk ⟨1, 1, [QItem.sentinel], 0, [0], 0, 0, [], [], 0, 2⟩
                [] 0 [] rfl)
            (Relation.ReflTransGen.head
              (show pipeStep 1 1 500 ⟨1, 1, [QItem.sentinel], 1, [], 0, 0, [0], [], 0, 1⟩
                  ⟨1, 1, [], 0, [], 1, 0, [0], [], 0, 1⟩ from
                pipeStep.getSentinel ⟨1, 1, [QItem.sentinel], 1, [], 0, 0, [0], [], 0, 1⟩
                  [] (by decide) rfl)
              (Relation.ReflTransGen.head
                (show pipeStep 1 1 500 ⟨1, 1, [], 0, [], 1, 0, [0], [], 0, 1⟩ c5Final from
                  pipeStep.exitWorker ⟨1, 1, [], 0, [], 1, 0, [0], [], 0, 1⟩ (by decide))
                Relation.ReflTransGen.refl)))))
  exact C5_drain_completeness 1 1 500 c5Final hchain ⟨rfl, rfl, rfl⟩

end Pipeline
